import Mathlib

/-!
Shallow embedding of the Devcamp bootcamp-directory controllers
(`src/controllers/bootcamps.js` and its query-translation reference
implementation at lines 218-293), together with theorems settling the
spec's claims about the query translator, pagination envelope,
ownership gates, creation limit, and the photo-upload handler.
-/

namespace Devcamp

/-! ## Pagination parsing (reference implementation, lines 257-259) -/

/-- JS `parseInt(s, 10)`: skip leading whitespace, read an optional sign,
then the maximal run of leading decimal digits (later characters are
ignored); the result is `none` (NaN) when no digit follows. -/
def parseIntJS (s : String) : Option Int :=
  let cs := s.data.dropWhile (fun c => c = ' ' || c = '\t' || c = '\n')
  let sgncs : Int × List Char :=
    match cs with
    | '-' :: rest => (-1, rest)
    | '+' :: rest => (1, rest)
    | _ => (1, cs)
  let ds := sgncs.2.takeWhile Char.isDigit
  if ds.isEmpty then none
  else some (sgncs.1 * (ds.foldl (fun a c => a * 10 + (c.toNat - 48)) 0 : Nat))

/-- JS `v || d` applied to a parsed number: `NaN` (modelled `none`) and `0`
are falsy and fall back to the default; every other number, negative ones
included, is truthy and kept. -/
def jsNumOr (v : Option Int) (d : Int) : Int :=
  match v with
  | none => d
  | some n => if n = 0 then d else n

/-- Line 257: `const page = parseInt(req.query.page, 10) || 1` (the query
parameter is `none` when absent). -/
def parsePage (q : Option String) : Int :=
  jsNumOr (q.bind parseIntJS) 1

/-- Line 258: `const limit = parseInt(req.query.limit, 10) || 25`. -/
def parseLimit (q : Option String) : Int :=
  jsNumOr (q.bind parseIntJS) 25

/-- Line 259: `const startIndex = (page - 1) * limit` (the skip value). -/
def startIndex (page limit : Int) : Int := (page - 1) * limit

/-- Line 260: `const endIndex = page * limit`. -/
def endIndex (page limit : Int) : Int := page * limit

/-! ## Pagination envelope (reference implementation, lines 270-284) -/

/-- A window descriptor `{ page, limit }` as placed in `next` / `prev`. -/
structure Window where
  page : Int
  limit : Int
deriving DecidableEq, Repr

/-- The pagination envelope: `next` and `prev` are present only when their
guards hold (lines 272-284). -/
structure Pagination where
  next : Option Window
  prev : Option Window
deriving DecidableEq, Repr

/-- Lines 270-284: `pagination.next = { page: page+1, limit }` when
`endIndex < total`; `pagination.prev = { page: page-1, limit }` when
`startIndex > 0`. -/
def buildPagination (page limit total : Int) : Pagination :=
  { next := if endIndex page limit < total then some ⟨page + 1, limit⟩ else none
    prev := if startIndex page limit > 0 then some ⟨page - 1, limit⟩ else none }

end Devcamp

namespace Devcamp

/-- **C1.** For every request with `page ≥ 1` and `limit ≥ 1`, the envelope
built by the list endpoint contains `next` iff `page*limit < total`, that
field equalling `{page+1, limit}`, and contains `prev` iff `page > 1`, that
field equalling `{page-1, limit}`. -/
theorem C1_pagination_envelope (page limit total : Int)
    (hp : 1 ≤ page) (hl : 1 ≤ limit) :
    ((buildPagination page limit total).next.isSome ↔ page * limit < total)
    ∧ (page * limit < total →
        (buildPagination page limit total).next = some ⟨page + 1, limit⟩)
    ∧ ((buildPagination page limit total).prev.isSome ↔ 1 < page)
    ∧ (1 < page →
        (buildPagination page limit total).prev = some ⟨page - 1, limit⟩) := by
  have hprev : startIndex page limit > 0 ↔ 1 < page := by
    unfold startIndex
    constructor
    · intro h
      by_contra hle
      push_neg at hle
      nlinarith
    · intro h
      nlinarith
  refine ⟨?_, ?_, ?_, ?_⟩
  · unfold buildPagination endIndex
    by_cases h : page * limit < total <;> simp [h]
  · intro h
    unfold buildPagination endIndex
    simp [h]
  · unfold buildPagination
    rw [← hprev]
    by_cases h : startIndex page limit > 0 <;> simp [h]
  · intro h
    unfold buildPagination
    simp [hprev.mpr h]

theorem C1_pagination_envelope_witness :
    (1 : Int) ≤ 2 ∧ (1 : Int) ≤ 10 ∧
    (((buildPagination 2 10 25).next.isSome ↔ (2 : Int) * 10 < 25)
    ∧ ((2 : Int) * 10 < 25 →
        (buildPagination 2 10 25).next = some ⟨2 + 1, 10⟩)
    ∧ (((buildPagination 2 10 25).prev.isSome ↔ (1 : Int) < 2))
    ∧ ((1 : Int) < 2 →
        (buildPagination 2 10 25).prev = some ⟨2 - 1, 10⟩)) :=
  ⟨by norm_num, by norm_num,
   C1_pagination_envelope 2 10 25 (by norm_num) (by norm_num)⟩

/-- **C2, as stated, is false**: `limit=-5` does not fall back to the
default 25 — `parseInt` yields `-5`, which is truthy, so the falsy-check
`|| 25` keeps it. -/
theorem C2_counterexample :
    parseLimit (some "-5") = -5 ∧ parseLimit (some "-5") ≠ 25 := by
  constructor
  · rfl
  · decide

/-- **C2 (amended).** Parsing of `page` and `limit` falls back to the
defaults `(1, 25)` on non-numeric or zero input (`page=abc` yields page 1 and
`limit=abc` yields limit 25), but a negative numeric input passes the
falsy-check untouched: `limit=-5` yields limit `-5`, and the skip value
`(page-1)*limit` can then be negative (`page=2&limit=-5` gives skip `-5`). -/
theorem C2_parse_fallback :
    parsePage (some "abc") = 1
    ∧ parseLimit (some "abc") = 25
    ∧ parsePage (some "0") = 1
    ∧ parseLimit (some "-5") = -5
    ∧ startIndex (parsePage (some "2")) (parseLimit (some "-5")) = -5 := by
  refine ⟨rfl, rfl, rfl, rfl, rfl⟩

end Devcamp

namespace Devcamp

/-! ## Total count (reference implementation, line 261) -/

/-- Line 261 as written: `const total = await Bootcamp.countDocuments();` —
the count query is issued with NO filter argument, so it counts every
document in the collection. -/
def getBootcampsTotal (db : List α) : Nat := db.length

/-- The number of documents matching the list request's filter predicate
(what a count query sharing the main query's predicate would return). -/
def matchCount (pred : α → Bool) (db : List α) : Nat :=
  (db.filter pred).length

/-- **C3, as stated, is false**: in a collection of two documents of which
the filter matches one, the `total` computed by line 261 is 2, not 1. -/
theorem C3_counterexample :
    getBootcampsTotal ["a", "b"] = 2
    ∧ matchCount (fun s => s = "a") ["a", "b"] = 1
    ∧ getBootcampsTotal ["a", "b"] ≠ matchCount (fun s => s = "a") ["a", "b"] := by
  refine ⟨rfl, by decide, by decide⟩

/-- **C3 (amended).** The `total` used in the pagination envelope is the
count of ALL documents in the collection (the count query carries no
predicate), so it agrees with the number of records matching the filter
exactly when every document in the collection matches the filter. -/
theorem C3_total_unfiltered (pred : α → Bool) (db : List α) :
    getBootcampsTotal db = db.length
    ∧ (getBootcampsTotal db = matchCount pred db ↔ ∀ r ∈ db, pred r) := by
  refine ⟨rfl, ?_⟩
  unfold getBootcampsTotal matchCount
  constructor
  · intro h
    have hsub : List.Sublist (db.filter pred) db := List.filter_sublist db
    have : db.filter pred = db := hsub.eq_of_length h.symm
    exact fun r hr => List.of_mem_filter (this ▸ hr)
  · intro h
    rw [List.filter_eq_self.mpr h]

/-! ## Operator-keyword rewrite (reference implementation, lines 232-239) -/

/-- The character class matched by `\b` word boundaries in the rewrite
regex: ASCII word characters. -/
def wordChar (c : Char) : Bool := c.isAlphanum || c = '_'

/-- The five alternatives of the regex `/\b(gt|gte|lt|lte|in)\b/g`. -/
def opKeywords : List String := ["gt", "gte", "lt", "lte", "in"]

/-- Emit one maximal word token through the replacement callback
`match => '$' + match` (line 236): a recognized keyword is prefixed with
the dollar sigil, anything else is kept verbatim. -/
def emitTok (tok : List Char) : List Char :=
  if opKeywords.contains (String.mk tok) then '$' :: tok else tok

/-- Scanner realizing the global whole-word regex replacement: accumulate
the current run of word characters, flush it through `emitTok` at each
word boundary. -/
def goRep (tok : List Char) : List Char → List Char
  | [] => emitTok tok
  | c :: cs =>
    if wordChar c then goRep (tok ++ [c]) cs
    else emitTok tok ++ c :: goRep [] cs

/-- Line 236: `queryStr.replace(/\b(gt|gte|lt|lte|in)\b/g, m => '$' + m)`. -/
def replaceOps (s : String) : String := String.mk (goRep [] s.data)

/-- Query-parameter values as parsed from the query string: a literal
string, or a nested object of operator-qualified values (what
`averageCost[gte]=1000` parses to). -/
inductive QVal where
  | str : String → QVal
  | obj : List (String × QVal) → QVal

mutual

/-- Line 232: `JSON.stringify(reqQuery)` on the (string-valued) parsed
query object. -/
def stringifyV : QVal → String
  | .str s => "\"" ++ s ++ "\""
  | .obj fs => "\x7b" ++ stringifyFields fs ++ "\x7d"

/-- Serialize the comma-separated `"key":value` members of an object. -/
def stringifyFields : List (String × QVal) → String
  | [] => ""
  | [(k, v)] => "\"" ++ k ++ "\":" ++ stringifyV v
  | (k, v) :: rest =>
      "\"" ++ k ++ "\":" ++ stringifyV v ++ "," ++ stringifyFields rest

end

end Devcamp

namespace Devcamp

/-- **C4.** A filter value qualified by any of the five recognized operator
keywords is rewritten to the store operator (keyword prefixed with the
dollar sigil): `averageCost[gte]=1000` becomes the predicate
`{"averageCost":{"$gte":"1000"}}` rather than a literal-string equality
match, while an unrecognized keyword (`foo`) passes through untouched as a
literal equality filter. -/
theorem C4_operator_rewrite (kw : String) (hkw : kw ∈ opKeywords) :
    replaceOps (stringifyV (.obj [("averageCost", .obj [(kw, .str "1000")])]))
      = stringifyV (.obj [("averageCost", .obj [("$" ++ kw, .str "1000")])])
    ∧ replaceOps (stringifyV (.obj [("averageCost", .obj [("foo", .str "1000")])]))
      = stringifyV (.obj [("averageCost", .obj [("foo", .str "1000")])]) := by
  refine ⟨?_, rfl⟩
  simp only [opKeywords, List.mem_cons, List.not_mem_nil, or_false] at hkw
  rcases hkw with rfl | rfl | rfl | rfl | rfl <;> rfl

theorem C4_operator_rewrite_witness :
    "gte" ∈ opKeywords ∧
    (replaceOps (stringifyV (.obj [("averageCost", .obj [("gte", .str "1000")])]))
      = stringifyV (.obj [("averageCost", .obj [("$" ++ "gte", .str "1000")])])
    ∧ replaceOps (stringifyV (.obj [("averageCost", .obj [("foo", .str "1000")])]))
      = stringifyV (.obj [("averageCost", .obj [("foo", .str "1000")])])) :=
  ⟨by decide, C4_operator_rewrite "gte" (by decide)⟩

/-! ## Field selection (reference implementation, lines 242-245) -/

/-- JS `String.prototype.split(sep)` with a one-character separator, over
the character list: splitting the empty string gives one empty piece, and
separators delimit (possibly empty) pieces. -/
def splitOnChar (sep : Char) : List Char → List (List Char)
  | [] => [[]]
  | c :: rest =>
    let r := splitOnChar sep rest
    if c = sep then [] :: r
    else
      match r with
      | [] => [[c]]
      | t :: ts => (c :: t) :: ts

/-- JS `Array.prototype.join(sep)` with a one-character separator. -/
def joinWith (sep : Char) : List (List Char) → List Char
  | [] => []
  | [t] => t
  | t :: ts => t ++ sep :: joinWith sep ts

/-- Lines 243-244: `const fields = req.query.select.split(',').join(' ')`. -/
def selectFields (s : String) : String :=
  String.mk (joinWith ' ' (splitOnChar ',' s.data))

/-- Modelled from the spec: the store's field-selection convention (an
external collaborator, spec §4.1 step 3 and §6) — the selection spec is a
space-delimited inclusion list of field names, and the identity field is
always included in the returned set. -/
def selectionSet (spec : String) : List String :=
  (splitOnChar ' ' spec.data).map String.mk ++ ["id"]

/-- **C5.** `select=name,description` is split on commas and joined with
spaces into the spec `"name description"`, whose denoted field set is
exactly name, description, and the identity field. -/
theorem C5_select_fields :
    selectFields "name,description" = "name description"
    ∧ selectionSet (selectFields "name,description")
        = ["name", "description", "id"] := by
  refine ⟨rfl, rfl⟩

end Devcamp

namespace Devcamp

/-! ## Users, bootcamps, and the ownership gates
(`updateBootcamp` lines 61-81, `deleteBootcamp` lines 87-111) -/

/-- The authenticated user attached to the request by the auth middleware
(`req.user`). -/
structure User where
  id : String
  role : String
deriving DecidableEq, Repr

/-- A bootcamp document: its id and the owner's user id (`bootcamp.user`,
compared through `toString()`). -/
structure Bootcamp where
  id : String
  user : String
deriving DecidableEq, Repr

/-- The request object reaching the bootcamp controllers. -/
structure Request where
  user : User
deriving DecidableEq, Repr

/-- Line 69 reads `req.userrole`: no middleware or route in the repository
ever assigns a `userrole` property on the request, so this JS property
access always evaluates to `undefined` (`none`). -/
def Request.userroleAccess (_ : Request) : Option String := none

/-- Line 69 (updateBootcamp), as written in the source:
`bootcamp.user.toString() !== req.user.id && req.userrole !== 'admin'` —
`true` means the 401 branch is taken. -/
def updateOwnerReject (b : Bootcamp) (req : Request) : Bool :=
  b.user != req.user.id && req.userroleAccess != some "admin"

/-- Line 96 (deleteBootcamp):
`bootcamp.user.toString() !== req.user.id && req.user.role !== 'admin'` —
`true` means the 401 branch is taken. -/
def deleteOwnerReject (b : Bootcamp) (req : Request) : Bool :=
  b.user != req.user.id && req.user.role != "admin"

/-- **C6 (code bug).** The claimed gate — authorized iff owner or admin,
applied identically to update and delete — fails on update: line 69 checks
the nonexistent `req.userrole` (always `undefined`), so a non-owner
requester with role `admin` is rejected (401) by `updateBootcamp` while the
very same requester passes `deleteBootcamp`'s gate. -/
theorem C6_update_gate_typo :
    updateOwnerReject ⟨"b1", "owner1"⟩ ⟨⟨"adminUser", "admin"⟩⟩ = true
    ∧ deleteOwnerReject ⟨"b1", "owner1"⟩ ⟨⟨"adminUser", "admin"⟩⟩ = false
    ∧ deleteOwnerReject ⟨"b1", "owner1"⟩ ⟨⟨"owner1", "publisher"⟩⟩ = false
    ∧ deleteOwnerReject ⟨"b1", "owner1"⟩ ⟨⟨"intruder", "publisher"⟩⟩ = true := by
  refine ⟨rfl, rfl, rfl, rfl⟩

/-! ## createBootcamp (lines 36-56) -/

/-- Line 41: `Bootcamp.findOne({ user: req.user.id })` — the first document
whose `user` field equals the requester's id. -/
def findOneByUser (db : List Bootcamp) (uid : String) : Option Bootcamp :=
  db.find? (fun b => b.user == uid)

/-- Outcome of a create request. -/
inductive CreateOutcome where
  | nextErr : Nat → CreateOutcome
  | created : Nat → CreateOutcome
deriving DecidableEq, Repr

/-- Lines 36-56: `req.body.user = req.user.id` (line 38) makes the new
record owned by the requester; if `findOne` found a published bootcamp and
the requester's role is not `admin`, pass a 400 error to `next` and leave
the store unchanged; otherwise create the record (status 201). -/
def createBootcamp (db : List Bootcamp) (requester : User) (newId : String) :
    CreateOutcome × List Bootcamp :=
  let publishedBootcamp := findOneByUser db requester.id
  if publishedBootcamp.isSome && requester.role != "admin" then
    (.nextErr 400, db)
  else
    (.created 201, db ++ [⟨newId, requester.id⟩])

/-- **C10.** A non-admin requester who already owns a published bootcamp
gets a 400 error and the store is unchanged; an admin requester always
succeeds (201) with the new record appended, however many bootcamps exist. -/
theorem C10_create_limit (db : List Bootcamp) (requester : User)
    (newId : String) :
    ((∃ b ∈ db, b.user = requester.id) → requester.role ≠ "admin" →
        createBootcamp db requester newId = (.nextErr 400, db))
    ∧ (requester.role = "admin" →
        createBootcamp db requester newId
          = (.created 201, db ++ [⟨newId, requester.id⟩])) := by
  constructor
  · intro hex hrole
    have hfind : (findOneByUser db requester.id).isSome = true := by
      unfold findOneByUser
      rw [List.find?_isSome]
      obtain ⟨b, hb, he⟩ := hex
      exact ⟨b, hb, by simp [he]⟩
    unfold createBootcamp
    simp only [hfind, Bool.true_and, if_pos]
    rw [if_pos]
    simp [hrole]
  · intro hrole
    unfold createBootcamp
    rw [if_neg]
    simp [hrole]

theorem C10_create_limit_witness :
    ((∃ b ∈ [Bootcamp.mk "b1" "u1"], b.user = "u1") ∧ "publisher" ≠ "admin" ∧
      createBootcamp [Bootcamp.mk "b1" "u1"] ⟨"u1", "publisher"⟩ "b2"
        = (.nextErr 400, [Bootcamp.mk "b1" "u1"]))
    ∧ ("admin" = "admin" ∧
      createBootcamp [Bootcamp.mk "b1" "u1"] ⟨"u1", "admin"⟩ "b2"
        = (.created 201, [Bootcamp.mk "b1" "u1", Bootcamp.mk "b2" "u1"])) :=
  ⟨⟨⟨⟨"b1", "u1"⟩, by simp, rfl⟩, by decide,
    (C10_create_limit [Bootcamp.mk "b1" "u1"] ⟨"u1", "publisher"⟩ "b2").1
      ⟨⟨"b1", "u1"⟩, by simp, rfl⟩ (by decide)⟩,
   ⟨rfl,
    (C10_create_limit [Bootcamp.mk "b1" "u1"] ⟨"u1", "admin"⟩ "b2").2 rfl⟩⟩

end Devcamp

namespace Devcamp

/-! ## Response bodies (the JSON objects passed to `res.json`) -/

/-- A JSON value as it appears in the controllers' response bodies. -/
inductive JVal where
  | bool : Bool → JVal
  | str : String → JVal
  | num : Int → JVal
deriving DecidableEq, Repr

/-- Whether a response body (an ordered list of key/value members) carries
the key `k` with value `v`. -/
def bodyHas (body : List (String × JVal)) (k : String) (v : JVal) : Bool :=
  body.any (fun p => p.1 == k && p.2 == v)

/-- Lines 28-30 (`getBootcamp`): `{ success: true, data: bootcamp }`. -/
def getBootcampSuccessBody (data : JVal) : List (String × JVal) :=
  [("success", .bool true), ("data", data)]

/-- Lines 50-55 (`createBootcamp`): `{ success: true, data: bootcamp }`. -/
def createBootcampSuccessBody (data : JVal) : List (String × JVal) :=
  [("success", .bool true), ("data", data)]

/-- Lines 78-80 (`updateBootcamp`): `{ success: true, data: bootcamp }`. -/
def updateBootcampSuccessBody (data : JVal) : List (String × JVal) :=
  [("success", .bool true), ("data", data)]

/-- Lines 102-110 (`deleteBootcamp`):
`{ success: true, message: ..., bootcamp }`. -/
def deleteBootcampSuccessBody (b : JVal) : List (String × JVal) :=
  [("success", .bool true),
   ("message", .str "The following document has been deleted!"),
   ("bootcamp", b)]

/-- Lines 134-140 (`getBootcampsInRadius`):
`{ success: true, count, data }`. -/
def radiusSuccessBody (count : Int) (data : JVal) : List (String × JVal) :=
  [("success", .bool true), ("count", .num count), ("data", data)]

/-- Lines 187-192 (`bootcampPhotoUpload`), exactly as written in the
source: `{ succes: true, data: file.name }` — the key is misspelled. -/
def photoUploadSuccessBody (fname : String) : List (String × JVal) :=
  [("succes", .bool true), ("data", .str fname)]

/-! ## Photo upload handler (`bootcampPhotoUpload`, lines 147-196) -/

/-- The uploaded file `req.files.file`. -/
structure UploadedFile where
  name : String
  mimetype : String
  size : Nat
deriving DecidableEq, Repr

/-- Inputs of one run of the photo-upload handler: the `findById` result,
the authenticated requester, and `req.files` (`none` when no file was
attached). -/
structure PhotoReq where
  bootcamp : Option Bootcamp
  user : User
  files : Option UploadedFile
deriving DecidableEq, Repr

/-- How a run of the handler terminates: a thrown TypeError (dereference of
`undefined`), an error passed to `next` with its status code, or a JSON
response with its status code and body. -/
inductive PhotoOutcome where
  | thrown : PhotoOutcome
  | nextErr : Nat → PhotoOutcome
  | responded : Nat → List (String × JVal) → PhotoOutcome
deriving DecidableEq, Repr

/-- A run of the handler: its outcome, plus whether `file.mv` (the
file-write) was initiated. -/
structure PhotoRun where
  outcome : PhotoOutcome
  moveStarted : Bool
deriving DecidableEq, Repr

/-- The pattern is an initial segment of the character list. -/
def isStartOf : List Char → List Char → Bool
  | [], _ => true
  | _ :: _, [] => false
  | p :: ps, c :: cs => p == c && isStartOf ps cs

/-- JS `s.startsWith(pat)` (line 166), over the character lists. -/
def jsStartsWith (s pat : String) : Bool := isStartOf pat.data s.data

/-- Node `path.parse(name).ext`: the last dot of the basename onward, or
`""` when the basename has no dot (or only a leading dot). -/
def extOf (name : String) : String :=
  let base := (splitOnChar '/' name.data).getLastD []
  match splitOnChar '.' base with
  | [] => ""
  | [_] => ""
  | [[], _] => ""
  | parts => String.mk ('.' :: (parts.getLastD []))

/-- Lines 147-196, `bootcampPhotoUpload`, statement by statement:
  * lines 150-152: when `findById` returned nothing, a 404 `ErrorResponse`
    is constructed but neither returned nor passed to `next`, so control
    falls through;
  * line 155: the ownership guard dereferences `bootcamp.user`; when
    `bootcamp` is `undefined` this throws a TypeError (outcome `.thrown`),
    otherwise a non-owner non-admin gets `next(401)`;
  * lines 159-161: no `req.files` gives `next(400)`;
  * lines 166-168: a mime type not starting with `"image"` gives
    `next(400)`;
  * lines 171-173: `file.size > MAX_UPLOAD` gives `next(400)`;
  * lines 177-193: the file is renamed to `photo_<id><ext>` and `file.mv`
    is called; its callback answers 500 on a move error and otherwise
    responds 200 with the (misspelled) success body. -/
def bootcampPhotoUpload (maxUpload : Nat) (mvFails : Bool)
    (req : PhotoReq) : PhotoRun :=
  match req.bootcamp with
  | none => ⟨.thrown, false⟩
  | some b =>
    if b.user != req.user.id && req.user.role != "admin" then
      ⟨.nextErr 401, false⟩
    else
      match req.files with
      | none => ⟨.nextErr 400, false⟩
      | some f =>
        if !(jsStartsWith f.mimetype "image") then ⟨.nextErr 400, false⟩
        else if f.size > maxUpload then ⟨.nextErr 400, false⟩
        else if mvFails then ⟨.nextErr 500, true⟩
        else
          ⟨.responded 200
            (photoUploadSuccessBody ("photo_" ++ b.id ++ extOf f.name)),
           true⟩

end Devcamp

namespace Devcamp

/-- **C7, as stated, is false**: a photo-upload request whose file has a
non-image mime type is not always rejected with 400 — a non-owner,
non-admin requester with such a file is rejected by the earlier ownership
gate with 401 instead. -/
theorem C7_counterexample :
    (bootcampPhotoUpload 1000000 false
        ⟨some ⟨"b1", "owner1"⟩, ⟨"intruder", "publisher"⟩,
         some ⟨"notes.txt", "text/plain", 10⟩⟩).outcome
      = .nextErr 401
    ∧ PhotoOutcome.nextErr 401 ≠ PhotoOutcome.nextErr 400 := by
  refine ⟨rfl, by decide⟩

/-- **C7 (amended).** For every photo-upload request that reaches the file
checks (the bootcamp exists, the requester passes the ownership gate, and a
file is attached), a mime type not starting with `"image"` is rejected by
passing a 400 error to `next`, and no file-move is initiated in that run. -/
theorem C7_mime_rejected_before_write (maxUpload : Nat) (mvFails : Bool)
    (req : PhotoReq) (b : Bootcamp) (f : UploadedFile)
    (hb : req.bootcamp = some b)
    (hauth : (b.user != req.user.id && req.user.role != "admin") = false)
    (hf : req.files = some f)
    (hm : jsStartsWith f.mimetype "image" = false) :
    (bootcampPhotoUpload maxUpload mvFails req).outcome = .nextErr 400
    ∧ (bootcampPhotoUpload maxUpload mvFails req).moveStarted = false := by
  have hrun : bootcampPhotoUpload maxUpload mvFails req
      = ⟨.nextErr 400, false⟩ := by
    simp [bootcampPhotoUpload, hb, hauth, hf, hm]
  rw [hrun]
  exact ⟨rfl, rfl⟩

theorem C7_mime_rejected_before_write_witness :
    (PhotoReq.mk (some ⟨"b1", "owner1"⟩) ⟨"owner1", "publisher"⟩
        (some ⟨"notes.txt", "text/plain", 10⟩)).bootcamp
      = some ⟨"b1", "owner1"⟩
    ∧ (("owner1" : String) != "owner1"
        && ("publisher" : String) != "admin") = false
    ∧ jsStartsWith "text/plain" "image" = false
    ∧ ((bootcampPhotoUpload 1000000 false
          ⟨some ⟨"b1", "owner1"⟩, ⟨"owner1", "publisher"⟩,
           some ⟨"notes.txt", "text/plain", 10⟩⟩).outcome = .nextErr 400
      ∧ (bootcampPhotoUpload 1000000 false
          ⟨some ⟨"b1", "owner1"⟩, ⟨"owner1", "publisher"⟩,
           some ⟨"notes.txt", "text/plain", 10⟩⟩).moveStarted = false) :=
  ⟨rfl, rfl, rfl,
   C7_mime_rejected_before_write 1000000 false
     ⟨some ⟨"b1", "owner1"⟩, ⟨"owner1", "publisher"⟩,
      some ⟨"notes.txt", "text/plain", 10⟩⟩
     ⟨"b1", "owner1"⟩ ⟨"notes.txt", "text/plain", 10⟩ rfl rfl rfl rfl⟩

/-- **C9.** When `findById` returns nothing, the constructed 404 error is
neither returned nor passed to `next`: the run never produces a 404, never
starts a file-move, and instead throws on the `bootcamp.user` dereference
in the ownership check. -/
theorem C9_notfound_falls_through (maxUpload : Nat) (mvFails : Bool)
    (req : PhotoReq) (h : req.bootcamp = none) :
    (bootcampPhotoUpload maxUpload mvFails req).outcome = .thrown
    ∧ (bootcampPhotoUpload maxUpload mvFails req).outcome ≠ .nextErr 404
    ∧ (bootcampPhotoUpload maxUpload mvFails req).moveStarted = false := by
  have hrun : bootcampPhotoUpload maxUpload mvFails req = ⟨.thrown, false⟩ := by
    unfold bootcampPhotoUpload
    rw [h]
  rw [hrun]
  refine ⟨rfl, by decide, rfl⟩

theorem C9_notfound_falls_through_witness :
    (PhotoReq.mk none ⟨"u1", "publisher"⟩ none).bootcamp = none
    ∧ ((bootcampPhotoUpload 100 false
          ⟨none, ⟨"u1", "publisher"⟩, none⟩).outcome = .thrown
      ∧ (bootcampPhotoUpload 100 false
          ⟨none, ⟨"u1", "publisher"⟩, none⟩).outcome ≠ .nextErr 404
      ∧ (bootcampPhotoUpload 100 false
          ⟨none, ⟨"u1", "publisher"⟩, none⟩).moveStarted = false) :=
  ⟨rfl, C9_notfound_falls_through 100 false ⟨none, ⟨"u1", "publisher"⟩, none⟩ rfl⟩

/-- **C8 (code bug).** Every bootcamp handler's success body carries
`success: true` except the photo-upload handler: a successful upload run
responds 200 with the body written at lines 189-192, whose flag key is the
misspelled `succes`, so that body does not contain `success: true`. -/
theorem C8_success_key_misspelled :
    (bootcampPhotoUpload 1000000 false
        ⟨some ⟨"b1", "owner1"⟩, ⟨"owner1", "publisher"⟩,
         some ⟨"pic.jpg", "image/jpeg", 500⟩⟩).outcome
      = .responded 200 (photoUploadSuccessBody "photo_b1.jpg")
    ∧ bodyHas (photoUploadSuccessBody "photo_b1.jpg")
        "success" (.bool true) = false
    ∧ bodyHas (photoUploadSuccessBody "photo_b1.jpg")
        "succes" (.bool true) = true
    ∧ (∀ d, bodyHas (getBootcampSuccessBody d) "success" (.bool true) = true)
    ∧ (∀ d, bodyHas (createBootcampSuccessBody d) "success" (.bool true) = true)
    ∧ (∀ d, bodyHas (updateBootcampSuccessBody d) "success" (.bool true) = true)
    ∧ (∀ d, bodyHas (deleteBootcampSuccessBody d) "success" (.bool true) = true)
    ∧ (∀ n d, bodyHas (radiusSuccessBody n d) "success" (.bool true) = true) := by
  refine ⟨rfl, rfl, rfl, fun d => rfl, fun d => rfl, fun d => rfl,
    fun d => rfl, fun n d => rfl⟩

end Devcamp
